import Mathlib

/-!
Verification of the go-driver cluster failover connection (cluster/cluster.go)
and of the collection document operations (collection CRUD, batched decode).
The Go code is shallowly embedded: the failover loop of `clusterConnection.Do`
becomes a structurally recursive function over an abstract pool of server
behaviors, and the document operations become pure functions over an abstract
wire environment.  Real-time behavior (wall-clock timeouts) is not modeled;
the timeout-divider arithmetic of `Do` is modeled separately over exact
rationals.  `WithStack` wrapping is elided everywhere (it is diagnostic only).
-/

namespace GoDriver

/-- Classification flags of a Go error value as seen by the failover loop of
`clusterConnection.Do`: `canceled` is what `driver.IsCanceled` reports,
`arango` what `driver.IsArangoError` reports; `id` identifies the value. -/
structure ErrInfo where
  id : Nat
  canceled : Bool
  arango : Bool
deriving DecidableEq

/-- Outcome of one `s.Do(serverCtx, req)` call inside `clusterConnection.Do`
(cluster.go): either a response, identified by a number, or an error together
with the value of `req.Written()` observed right after that attempt. -/
inductive AttemptOutcome where
  | ok (resp : Nat)
  | err (e : ErrInfo) (written : Bool)
deriving DecidableEq

/-- Error value as returned by `clusterConnection.Do`: `stacked e` stands for
`driver.WithStack(err)` (the error surfaced as-is, since stack wrapping is
elided), `respWrapped e` stands for wrapping in `driver.ResponseError` before
`WithStack` (cluster.go line 114). -/
inductive DoErr where
  | stacked (e : ErrInfo)
  | respWrapped (e : ErrInfo)
deriving DecidableEq

/-- One member of the server pool: the behavior of its `NewRequest`,
`Unmarshal` and `Do` methods for the call under consideration.  Requests and
unmarshal inputs are identified by numbers. -/
structure Server where
  newReq : String → String → Except ErrInfo Nat
  unmarshalRes : Nat → Option ErrInfo
  doA : AttemptOutcome

/-- Server used as the out-of-range default of `serverAt`; real executions of
the Go code never index out of range (the pool is non-empty and the cursor is
always reduced modulo the pool size). -/
def defaultServer : Server :=
  ⟨fun _ _ => Except.ok 0, fun _ => none, AttemptOutcome.ok 0⟩

def serverAt (servers : List Server) (i : Nat) : Server :=
  servers.getD i defaultServer

instance {ε α : Type} [DecidableEq ε] [DecidableEq α] : DecidableEq (Except ε α) := fun a b =>
  match a, b with
  | Except.ok x, Except.ok y =>
    if h : x = y then Decidable.isTrue (by rw [h])
    else Decidable.isFalse (fun he => by cases he; exact h rfl)
  | Except.error x, Except.error y =>
    if h : x = y then Decidable.isTrue (by rw [h])
    else Decidable.isFalse (fun he => by cases he; exact h rfl)
  | Except.ok _, Except.error _ => Decidable.isFalse (fun he => by cases he)
  | Except.error _, Except.ok _ => Decidable.isFalse (fun he => by cases he)

/-- The `clusterConnection` state: the ordered server pool and the
current-endpoint cursor (fields `servers` and `current` in cluster.go). -/
structure ClusterConn where
  servers : List Server
  current : Nat

/-- Trace of one `clusterConnection.Do` call: the returned value, the final
value of the cursor, and the endpoint indices attempted, in order. -/
structure DoTrace where
  result : Except DoErr Nat
  cursor : Nat
  attempts : List Nat
deriving DecidableEq

/-- The retry loop of `clusterConnection.Do` (cluster.go lines 89-125).
`remaining` counts the retries still allowed: the Go loop increments an
`attempt` counter starting at 1 and gives up when `attempt > len(c.servers)`,
which is the same as starting `remaining` at `len(servers) - 1` and giving up
at 0.  On success the response is returned; a canceled error returns at once;
with `req.Written()` true the error is returned without failover, as-is when
it is an Arango error and wrapped in `ResponseError` otherwise; a
pre-transmission failure rotates the cursor with `getNextServer` and
retries. -/
def doAux (servers : List Server) : Nat → Nat → List Nat → DoTrace
  | remaining, cur, tried =>
    match (serverAt servers cur).doA with
    | AttemptOutcome.ok r => ⟨Except.ok r, cur, tried ++ [cur]⟩
    | AttemptOutcome.err e written =>
      if e.canceled then ⟨Except.error (DoErr.stacked e), cur, tried ++ [cur]⟩
      else if written then
        if e.arango then ⟨Except.error (DoErr.stacked e), cur, tried ++ [cur]⟩
        else ⟨Except.error (DoErr.respWrapped e), cur, tried ++ [cur]⟩
      else
        match remaining with
        | 0 => ⟨Except.error (DoErr.stacked e), cur, tried ++ [cur]⟩
        | r + 1 => doAux servers r ((cur + 1) % servers.length) (tried ++ [cur])

/-- `clusterConnection.Do`: start at the current cursor; the Go attempt
counter allows at most `len(c.servers)` attempts in total. -/
def clusterDo (servers : List Server) (current : Nat) : DoTrace :=
  doAux servers (servers.length - 1) current []

/-- `clusterConnection.NewRequest` (cluster.go lines 67-70): it always
delegates to `c.servers[0]`, never consulting the cursor. -/
def ClusterConn.newRequest (c : ClusterConn) (method path : String) :
    Except ErrInfo Nat :=
  (serverAt c.servers 0).newReq method path

/-- `clusterConnection.Unmarshal` (cluster.go lines 142-147): it delegates to
`c.servers[0]`, wrapping a failure with `WithStack` (elided here). -/
def ClusterConn.unmarshal (c : ClusterConn) (data : Nat) : Option ErrInfo :=
  (serverAt c.servers 0).unmarshalRes data

/-- The divider computation of `clusterConnection.Do` (cluster.go line 87):
`math.Max(1.0, math.Min(3.0, float64(len(c.servers))))`, over exact
rationals (the involved values are small integers, so float rounding never
occurs). -/
def timeoutDivider (n : Nat) : ℚ := max 1 (min 3 (n : ℚ))

/-- The per-attempt timeout of `clusterConnection.Do` (cluster.go line 93):
the overall timeout divided by the divider. -/
def attemptTimeout (timeout : ℚ) (n : Nat) : ℚ := timeout / timeoutDivider n

/-- The spec wording of the divider: the pool size clamped to the range
1..3, as a natural number. -/
def clampPool (n : Nat) : Nat := max 1 (min 3 n)

/-- A pool member that fails every attempt before the request is written,
with an error that is neither a cancellation nor an Arango error, tagged
`i`.  Used for concrete executions. -/
def preFailServer (i : Nat) : Server :=
  ⟨fun _ _ => Except.ok 0, fun _ => none, AttemptOutcome.err ⟨i, false, false⟩ false⟩

/-- A pool member that fails every attempt after the request was written,
with an error that is not a cancellation; `a` says whether it is an Arango
error. -/
def postFailServer (i : Nat) (a : Bool) : Server :=
  ⟨fun _ _ => Except.ok 0, fun _ => none, AttemptOutcome.err ⟨i, false, a⟩ true⟩

/-- A pool member whose attempt fails with a caller-cancellation error. -/
def cancelServer (i : Nat) : Server :=
  ⟨fun _ _ => Except.ok 0, fun _ => none, AttemptOutcome.err ⟨i, true, false⟩ false⟩

/-- A pool member whose attempt succeeds with response `r`. -/
def okServer (r : Nat) : Server :=
  ⟨fun _ _ => Except.ok 0, fun _ => none, AttemptOutcome.ok r⟩

/-- Document metadata (fields Key, ID, Rev of `driver.DocumentMeta`). -/
structure DocumentMeta where
  key : String
  id : String
  rev : String
deriving DecidableEq

/-- The zero value of `DocumentMeta`. -/
def zeroMeta : DocumentMeta := ⟨"", "", ""⟩

/-- Error values of the driver package: `InvalidArgumentError`, Arango
errors as built by `newArangoError`, and opaque wire or decode errors
identified by a number.  `WithStack` wrapping is elided. -/
inductive DriverError where
  | invalidArgument (msg : String)
  | arango (status : Nat) (code : Nat) (msg : String)
  | wire (id : Nat)
deriving DecidableEq

/-- `newArangoError(status, code, message)`. -/
def newArangoError (status code : Nat) (msg : String) : DriverError :=
  DriverError.arango status code msg

/-- One element response of `ParseArrayBody`, or a singular response: its
status code, the decoded error its `CheckStatus` yields when the status is
not accepted, and the outcomes of `ParseBody` for the metadata, the `old`
field and the `new` field.  The decoded old/new payloads themselves go to
caller-supplied destinations and are not inspected by any claim, so only
the success or failure of their decode is kept. -/
structure WireResponse where
  status : Nat
  statusErr : DriverError
  metaBody : Except DriverError DocumentMeta
  oldBody : Except DriverError Unit
  newBody : Except DriverError Unit
deriving DecidableEq

/-- Response used as the out-of-range default when indexing a response
array; the Go code indexes `resps[i]` for `i < count` directly and would
panic on a short array. -/
def wrDefault : WireResponse :=
  ⟨0, DriverError.wire 0, Except.error (DriverError.wire 0), Except.ok (), Except.ok ()⟩

/-- `Response.CheckStatus(validStatusCodes...)` per the Response interface
contract: nil when the status is one of the given codes, else a decoded
error response. -/
def checkStatusL (r : WireResponse) (valid : List Nat) : Option DriverError :=
  if r.status ∈ valid then none else some r.statusErr

/-- A whole array-shaped response: its overall status code, the decoded
error of its `CheckStatus`, and the outcome of `ParseArrayBody`. -/
structure WireArrayResponse where
  status : Nat
  statusErr : DriverError
  items : Except DriverError (List WireResponse)
deriving DecidableEq

/-- The per-call option bag `contextSettings` as consumed by the code under
verification: Silent, ReturnOld and ReturnNew (modeled as whether a
destination was supplied), WaitForSync, and the expected Revisions. -/
structure ContextSettings where
  silent : Bool
  returnOld : Bool
  returnNew : Bool
  waitForSync : Bool
  revisions : Option (List String)
deriving DecidableEq

/-- Modelled from the spec: `contextSettings.okStatus` lives in context.go,
which is not part of the sources under verification.  The spec gives each
operation a pair of accepted statuses (Create, Update, Replace: 201/202;
Remove: 200/202), the first being the wait-for-sync variant; `okStatus`
picks the one matching the call's wait-for-sync option. -/
def ContextSettings.okStatus (cs : ContextSettings) (withSync withoutSync : Nat) : Nat :=
  if cs.waitForSync then withSync else withoutSync

/-- Modelled from the spec: `validateKey` is not part of the sources under
verification.  The spec says a blank key fails with InvalidArgument before
any network call; non-blank keys are accepted by this model. -/
def validateKey (key : String) : Option DriverError :=
  if key = "" then some (DriverError.invalidArgument "key is empty") else none

/-- `createMergeArray(keys, revs)` (document collection source, lines
400-434), keeping only its error behavior: the merge-map payload it builds
is part of the opaque request body, which no claim inspects.  `revs = none`
models a nil revisions slice. -/
def createMergeArray (keys : List String) (revs : Option (List String)) :
    Except DriverError Unit :=
  match revs with
  | none => Except.ok ()
  | some rs =>
    if keys.length ≠ rs.length then
      Except.error (DriverError.invalidArgument "#keys must be equal to #revs")
    else Except.ok ()

/-- Behavior of the connection and of request marshaling for one collection
call: the outcome of `conn.NewRequest`, of `SetBody` or `SetBodyArray`, and
of `conn.Do` (singular or array shaped). -/
structure WireEnv where
  newReqErr : Option DriverError
  setBodyErr : Option DriverError
  doSingle : Except DriverError WireResponse
  doArray : Except DriverError WireArrayResponse

/-- The body of the loop of `parseResponseArray` (document collection
source, lines 446-472) for index `i`: check the item status against
200/201/202, then decode the metadata, then decode the `old` and `new`
fields when requested; every failure is recorded at `errs[i]` (a later
failure overwrites an earlier one), and the metadata, once decoded, stays
at `metas[i]`. -/
def parseStep (cs : ContextSettings) (resps : List WireResponse)
    (acc : List DocumentMeta × List (Option DriverError)) (i : Nat) :
    List DocumentMeta × List (Option DriverError) :=
  let r := resps.getD i wrDefault
  match checkStatusL r [200, 201, 202] with
  | some e => (acc.1, acc.2.set i (some e))
  | none =>
    match r.metaBody with
    | Except.error e => (acc.1, acc.2.set i (some e))
    | Except.ok meta =>
      let acc1 := (acc.1.set i meta, acc.2)
      let acc2 :=
        if cs.returnOld then
          match r.oldBody with
          | Except.error e => (acc1.1, acc1.2.set i (some e))
          | Except.ok _ => acc1
        else acc1
      if cs.returnNew then
        match r.newBody with
        | Except.error e => (acc2.1, acc2.2.set i (some e))
        | Except.ok _ => acc2
      else acc2

/-- `parseResponseArray(resp, count, cs)` (document collection source, lines
437-474): parse the array body, allocate `count` zero metas and `count` nil
errors, and run the per-index loop. -/
def parseResponseArray (resp : WireArrayResponse) (count : Nat)
    (cs : ContextSettings) :
    Except DriverError (List DocumentMeta × List (Option DriverError)) :=
  match resp.items with
  | Except.error e => Except.error e
  | Except.ok resps =>
    Except.ok ((List.range count).foldl (parseStep cs resps)
      (List.replicate count zeroMeta, List.replicate count none))

/-- The decode of one position, as a function of that position's response
alone: the value `parseResponseArray` ends up storing at any index whose
response is this one.  Status or metadata-decode failures leave the zero
meta with the error; an old/new decode failure keeps the decoded meta and
records the error, the `new` failure overwriting an `old` one. -/
def itemDecode (cs : ContextSettings) (r : WireResponse) :
    DocumentMeta × Option DriverError :=
  match checkStatusL r [200, 201, 202] with
  | some e => (zeroMeta, some e)
  | none =>
    match r.metaBody with
    | Except.error e => (zeroMeta, some e)
    | Except.ok meta =>
      let eOld : Option DriverError :=
        if cs.returnOld then
          match r.oldBody with
          | Except.error e => some e
          | Except.ok _ => none
        else none
      let eNew : Option DriverError :=
        if cs.returnNew then
          match r.newBody with
          | Except.error e => some e
          | Except.ok _ => none
        else none
      (meta, eNew.orElse (fun _ => eOld))

/-- `collection.CreateDocument` (document collection source, lines
119-154).  The result is the Go pair of the returned metadata and error;
the second component of the outer pair counts the `conn.Do` network calls
issued. -/
def createDocument (env : WireEnv) (cs : ContextSettings)
    (document : Option Nat) : (DocumentMeta × Option DriverError) × Nat :=
  match document with
  | none => ((zeroMeta, some (DriverError.invalidArgument "document nil")), 0)
  | some _ =>
    match env.newReqErr with
    | some e => ((zeroMeta, some e), 0)
    | none =>
      match env.setBodyErr with
      | some e => ((zeroMeta, some e), 0)
      | none =>
        match env.doSingle with
        | Except.error e => ((zeroMeta, some e), 1)
        | Except.ok resp =>
          match checkStatusL resp [cs.okStatus 201 202] with
          | some e => ((zeroMeta, some e), 1)
          | none =>
            if cs.silent then ((zeroMeta, none), 1)
            else
              match resp.metaBody with
              | Except.error e => ((zeroMeta, some e), 1)
              | Except.ok meta =>
                if cs.returnNew then
                  match resp.newBody with
                  | Except.error e => ((meta, some e), 1)
                  | Except.ok _ => ((meta, none), 1)
                else ((meta, none), 1)

/-- `collection.UpdateDocument` (document collection source, lines
208-252), with the same result convention as `createDocument`.  A failed
`old`/`new` decode returns the already-decoded meta together with the
error, exactly as the Go code does. -/
def updateDocument (env : WireEnv) (cs : ContextSettings) (key : String)
    (update : Option Nat) : (DocumentMeta × Option DriverError) × Nat :=
  match validateKey key with
  | some e => ((zeroMeta, some e), 0)
  | none =>
    match update with
    | none => ((zeroMeta, some (DriverError.invalidArgument "update nil")), 0)
    | some _ =>
      match env.newReqErr with
      | some e => ((zeroMeta, some e), 0)
      | none =>
        match env.setBodyErr with
        | some e => ((zeroMeta, some e), 0)
        | none =>
          match env.doSingle with
          | Except.error e => ((zeroMeta, some e), 1)
          | Except.ok resp =>
            match checkStatusL resp [cs.okStatus 201 202] with
            | some e => ((zeroMeta, some e), 1)
            | none =>
              if cs.silent then ((zeroMeta, none), 1)
              else
                match resp.metaBody with
                | Except.error e => ((zeroMeta, some e), 1)
                | Except.ok meta =>
                  if cs.returnOld then
                    match resp.oldBody with
                    | Except.error e => ((meta, some e), 1)
                    | Except.ok _ =>
                      if cs.returnNew then
                        match resp.newBody with
                        | Except.error e => ((meta, some e), 1)
                        | Except.ok _ => ((meta, none), 1)
                      else ((meta, none), 1)
                  else
                    if cs.returnNew then
                      match resp.newBody with
                      | Except.error e => ((meta, some e), 1)
                      | Except.ok _ => ((meta, none), 1)
                    else ((meta, none), 1)

/-- `collection.CreateDocuments` (document collection source, lines
166-200).  The documents are an ordered list of opaque payloads (the
reflection kind check of the Go code always passes for a list); Go nil
slices are the empty lists.  The final number counts `conn.Do` calls. -/
def createDocuments (env : WireEnv) (cs : ContextSettings)
    (documents : List Nat) :
    ((List DocumentMeta × List (Option DriverError)) × Option DriverError) × Nat :=
  let documentCount := documents.length
  match env.newReqErr with
  | some e => ((([], []), some e), 0)
  | none =>
    match env.setBodyErr with
    | some e => ((([], []), some e), 0)
    | none =>
      match env.doArray with
      | Except.error e => ((([], []), some e), 1)
      | Except.ok resp =>
        if resp.status ≠ cs.okStatus 201 202 then
          ((([], []), some (newArangoError resp.status 0 "Invalid status")), 1)
        else if cs.silent then ((([], []), none), 1)
        else
          match parseResponseArray resp documentCount cs with
          | Except.error e => ((([], []), some e), 1)
          | Except.ok (metas, errs) => (((metas, errs), none), 1)

/-- `collection.UpdateDocuments` (document collection source, lines
260-306).  The formatted text of the length-mismatch message is elided (the
spec notes its display quirk is not to be replicated). -/
def updateDocuments (env : WireEnv) (cs : ContextSettings)
    (keys : List String) (updates : List Nat) :
    ((List DocumentMeta × List (Option DriverError)) × Option DriverError) × Nat :=
  let updateCount := updates.length
  if keys.length ≠ updateCount then
    ((([], []), some (DriverError.invalidArgument "expected keys")), 0)
  else
    match keys.findSome? validateKey with
    | some e => ((([], []), some e), 0)
    | none =>
      match env.newReqErr with
      | some e => ((([], []), some e), 0)
      | none =>
        match createMergeArray keys cs.revisions with
        | Except.error e => ((([], []), some e), 0)
        | Except.ok _ =>
          match env.setBodyErr with
          | some e => ((([], []), some e), 0)
          | none =>
            match env.doArray with
            | Except.error e => ((([], []), some e), 1)
            | Except.ok resp =>
              if resp.status ≠ cs.okStatus 201 202 then
                ((([], []), some (newArangoError resp.status 0 "Invalid status")), 1)
              else if cs.silent then ((([], []), none), 1)
              else
                match parseResponseArray resp updateCount cs with
                | Except.error e => ((([], []), some e), 1)
                | Except.ok (metas, errs) => (((metas, errs), none), 1)

/-- Unfolding of the failover loop with no retry allowance left. -/
theorem doAux_zero (servers : List Server) (cur : Nat) (tried : List Nat) :
    doAux servers 0 cur tried =
      match (serverAt servers cur).doA with
      | AttemptOutcome.ok r => ⟨Except.ok r, cur, tried ++ [cur]⟩
      | AttemptOutcome.err e written =>
        if e.canceled then ⟨Except.error (DoErr.stacked e), cur, tried ++ [cur]⟩
        else if written then
          if e.arango then ⟨Except.error (DoErr.stacked e), cur, tried ++ [cur]⟩
          else ⟨Except.error (DoErr.respWrapped e), cur, tried ++ [cur]⟩
        else ⟨Except.error (DoErr.stacked e), cur, tried ++ [cur]⟩ := by
  rw [doAux]

/-- Unfolding of the failover loop with retries left. -/
theorem doAux_succ (servers : List Server) (n cur : Nat) (tried : List Nat) :
    doAux servers (n + 1) cur tried =
      match (serverAt servers cur).doA with
      | AttemptOutcome.ok r => ⟨Except.ok r, cur, tried ++ [cur]⟩
      | AttemptOutcome.err e written =>
        if e.canceled then ⟨Except.error (DoErr.stacked e), cur, tried ++ [cur]⟩
        else if written then
          if e.arango then ⟨Except.error (DoErr.stacked e), cur, tried ++ [cur]⟩
          else ⟨Except.error (DoErr.respWrapped e), cur, tried ++ [cur]⟩
        else doAux servers n ((cur + 1) % servers.length) (tried ++ [cur]) := by
  rw [doAux]

/-- Loop step on a successful attempt. -/
theorem doAux_ok_step (servers : List Server) (remaining cur : Nat)
    (tried : List Nat) (r : Nat)
    (hda : (serverAt servers cur).doA = AttemptOutcome.ok r) :
    doAux servers remaining cur tried = ⟨Except.ok r, cur, tried ++ [cur]⟩ := by
  cases remaining
  · rw [doAux_zero, hda]
  · rw [doAux_succ, hda]

/-- Loop step on a canceled attempt. -/
theorem doAux_cancel_step (servers : List Server) (remaining cur : Nat)
    (tried : List Nat) (e : ErrInfo) (written : Bool)
    (hda : (serverAt servers cur).doA = AttemptOutcome.err e written)
    (hc : e.canceled = true) :
    doAux servers remaining cur tried =
      ⟨Except.error (DoErr.stacked e), cur, tried ++ [cur]⟩ := by
  cases remaining
  · rw [doAux_zero, hda]; simp [hc]
  · rw [doAux_succ, hda]; simp [hc]

/-- Loop step on a post-transmission failure. -/
theorem doAux_written_step (servers : List Server) (remaining cur : Nat)
    (tried : List Nat) (e : ErrInfo)
    (hda : (serverAt servers cur).doA = AttemptOutcome.err e true)
    (hc : e.canceled = false) :
    doAux servers remaining cur tried =
      ⟨Except.error (if e.arango then DoErr.stacked e else DoErr.respWrapped e),
        cur, tried ++ [cur]⟩ := by
  cases remaining
  · rw [doAux_zero, hda]; cases ha : e.arango <;> simp [hc, ha]
  · rw [doAux_succ, hda]; cases ha : e.arango <;> simp [hc, ha]

/-- Loop step on a pre-transmission failure with no retries left. -/
theorem doAux_pre_fail_last (servers : List Server) (cur : Nat)
    (tried : List Nat) (e : ErrInfo)
    (hda : (serverAt servers cur).doA = AttemptOutcome.err e false)
    (hc : e.canceled = false) :
    doAux servers 0 cur tried =
      ⟨Except.error (DoErr.stacked e), cur, tried ++ [cur]⟩ := by
  rw [doAux_zero, hda]; simp [hc]

/-- Loop step on a pre-transmission failure with retries left: rotate the
cursor and retry. -/
theorem doAux_pre_fail_step (servers : List Server) (n cur : Nat)
    (tried : List Nat) (e : ErrInfo)
    (hda : (serverAt servers cur).doA = AttemptOutcome.err e false)
    (hc : e.canceled = false) :
    doAux servers (n + 1) cur tried =
      doAux servers n ((cur + 1) % servers.length) (tried ++ [cur]) := by
  rw [doAux_succ, hda]; simp [hc]

/-- The last element of a list extended by one element. -/
theorem getLast_append_one (l : List Nat) (a : Nat) :
    (l ++ [a]).getLast? = some a := by
  rw [List.getLast?_concat]

/-- Whatever the pool behavior, the loop attempts the endpoint the cursor
points at first. -/
theorem doAux_attempts_head (servers : List Server) :
    ∀ (remaining cur : Nat) (tried : List Nat),
      ∃ rest, (doAux servers remaining cur tried).attempts = tried ++ cur :: rest := by
  intro remaining
  induction remaining with
  | zero =>
    intro cur tried
    cases hda : (serverAt servers cur).doA with
    | ok r => exact ⟨[], by rw [doAux_ok_step servers 0 cur tried r hda]⟩
    | err e written =>
      cases hc : e.canceled with
      | true =>
        exact ⟨[], by rw [doAux_cancel_step servers 0 cur tried e written hda hc]⟩
      | false =>
        cases written with
        | false => exact ⟨[], by rw [doAux_pre_fail_last servers cur tried e hda hc]⟩
        | true => exact ⟨[], by rw [doAux_written_step servers 0 cur tried e hda hc]⟩
  | succ n ih =>
    intro cur tried
    cases hda : (serverAt servers cur).doA with
    | ok r => exact ⟨[], by rw [doAux_ok_step servers (n + 1) cur tried r hda]⟩
    | err e written =>
      cases hc : e.canceled with
      | true =>
        exact ⟨[], by rw [doAux_cancel_step servers (n + 1) cur tried e written hda hc]⟩
      | false =>
        cases written with
        | true =>
          exact ⟨[], by rw [doAux_written_step servers (n + 1) cur tried e hda hc]⟩
        | false =>
          obtain ⟨rest, hrest⟩ := ih ((cur + 1) % servers.length) (tried ++ [cur])
          refine ⟨(cur + 1) % servers.length :: rest, ?_⟩
          rw [doAux_pre_fail_step servers n cur tried e hda hc, hrest,
            List.append_assoc]
          rfl

/-- On a successful result the final cursor points at the endpoint that
returned the response, and it is the last endpoint attempted. -/
theorem doAux_ok_cursor (servers : List Server) :
    ∀ (remaining cur : Nat) (tried : List Nat) (r : Nat),
      (doAux servers remaining cur tried).result = Except.ok r →
      (serverAt servers (doAux servers remaining cur tried).cursor).doA =
        AttemptOutcome.ok r ∧
      (doAux servers remaining cur tried).attempts.getLast? =
        some (doAux servers remaining cur tried).cursor := by
  intro remaining
  induction remaining with
  | zero =>
    intro cur tried r hr
    cases hda : (serverAt servers cur).doA with
    | ok r0 =>
      rw [doAux_ok_step servers 0 cur tried r0 hda] at hr ⊢
      simp at hr
      subst hr
      exact ⟨hda, getLast_append_one tried cur⟩
    | err e written =>
      exfalso
      cases hc : e.canceled with
      | true =>
        rw [doAux_cancel_step servers 0 cur tried e written hda hc] at hr
        simp at hr
      | false =>
        cases written with
        | false =>
          rw [doAux_pre_fail_last servers cur tried e hda hc] at hr
          simp at hr
        | true =>
          rw [doAux_written_step servers 0 cur tried e hda hc] at hr
          simp at hr
  | succ n ih =>
    intro cur tried r hr
    cases hda : (serverAt servers cur).doA with
    | ok r0 =>
      rw [doAux_ok_step servers (n + 1) cur tried r0 hda] at hr ⊢
      simp at hr
      subst hr
      exact ⟨hda, getLast_append_one tried cur⟩
    | err e written =>
      cases hc : e.canceled with
      | true =>
        rw [doAux_cancel_step servers (n + 1) cur tried e written hda hc] at hr
        simp at hr
      | false =>
        cases written with
        | true =>
          rw [doAux_written_step servers (n + 1) cur tried e hda hc] at hr
          simp at hr
        | false =>
          rw [doAux_pre_fail_step servers n cur tried e hda hc] at hr ⊢
          exact ih ((cur + 1) % servers.length) (tried ++ [cur]) r hr

/-- An upper bound on the number of attempts of the loop. -/
theorem doAux_attempts_len (servers : List Server) :
    ∀ (remaining cur : Nat) (tried : List Nat),
      (doAux servers remaining cur tried).attempts.length ≤
        tried.length + remaining + 1 := by
  intro remaining
  induction remaining with
  | zero =>
    intro cur tried
    cases hda : (serverAt servers cur).doA with
    | ok r =>
      rw [doAux_ok_step servers 0 cur tried r hda]
      simp only [List.length_append, List.length_cons, List.length_nil]
      omega
    | err e written =>
      cases hc : e.canceled with
      | true =>
        rw [doAux_cancel_step servers 0 cur tried e written hda hc]
        simp only [List.length_append, List.length_cons, List.length_nil]
        omega
      | false =>
        cases written with
        | false =>
          rw [doAux_pre_fail_last servers cur tried e hda hc]
          simp only [List.length_append, List.length_cons, List.length_nil]
          omega
        | true =>
          rw [doAux_written_step servers 0 cur tried e hda hc]
          simp only [List.length_append, List.length_cons, List.length_nil]
          omega
  | succ n ih =>
    intro cur tried
    cases hda : (serverAt servers cur).doA with
    | ok r =>
      rw [doAux_ok_step servers (n + 1) cur tried r hda]
      simp only [List.length_append, List.length_cons, List.length_nil]
      omega
    | err e written =>
      cases hc : e.canceled with
      | true =>
        rw [doAux_cancel_step servers (n + 1) cur tried e written hda hc]
        simp only [List.length_append, List.length_cons, List.length_nil]
        omega
      | false =>
        cases written with
        | true =>
          rw [doAux_written_step servers (n + 1) cur tried e hda hc]
          simp only [List.length_append, List.length_cons, List.length_nil]
          omega
        | false =>
          rw [doAux_pre_fail_step servers n cur tried e hda hc]
          have h := ih ((cur + 1) % servers.length) (tried ++ [cur])
          simp only [List.length_append, List.length_cons, List.length_nil] at h
          omega

/-- Rotating the start of a wrap-around walk: prepending the start index to
the walk from the next index. -/
theorem rotate_range_map (N cur m : Nat) (hcur : cur < N) :
    cur :: (List.range m).map (fun j => ((cur + 1) % N + j) % N) =
    (List.range (m + 1)).map (fun j => (cur + j) % N) := by
  rw [List.range_succ_eq_map, List.map_cons, List.map_map]
  congr 1
  · rw [Nat.add_zero, Nat.mod_eq_of_lt hcur]
  · apply List.map_congr_left
    intro j hj
    simp only [Function.comp_apply]
    rw [Nat.mod_add_mod]
    congr 1
    omega

/-- When every endpoint of the pool fails before the request is written and
without cancellation, the loop walks the pool in order starting at the
cursor and ends on the stacked error of the last endpoint reached. -/
theorem doAux_all_pre_fail (servers : List Server) (errOf : Nat → ErrInfo)
    (hfail : ∀ i, i < servers.length →
      (serverAt servers i).doA = AttemptOutcome.err (errOf i) false ∧
      (errOf i).canceled = false) :
    ∀ (remaining cur : Nat) (tried : List Nat), cur < servers.length →
      doAux servers remaining cur tried =
        ⟨Except.error (DoErr.stacked (errOf ((cur + remaining) % servers.length))),
         (cur + remaining) % servers.length,
         tried ++ (List.range (remaining + 1)).map
           (fun j => (cur + j) % servers.length)⟩ := by
  intro remaining
  induction remaining with
  | zero =>
    intro cur tried hcur
    obtain ⟨hda, hc⟩ := hfail cur hcur
    rw [doAux_pre_fail_last servers cur tried (errOf cur) hda hc,
      ← rotate_range_map servers.length cur 0 hcur]
    simp [Nat.mod_eq_of_lt hcur]
  | succ n ih =>
    intro cur tried hcur
    obtain ⟨hda, hc⟩ := hfail cur hcur
    have hlen : 0 < servers.length := lt_of_le_of_lt (Nat.zero_le _) hcur
    rw [doAux_pre_fail_step servers n cur tried (errOf cur) hda hc]
    rw [ih ((cur + 1) % servers.length) (tried ++ [cur]) (Nat.mod_lt _ hlen)]
    have hmod : ((cur + 1) % servers.length + n) % servers.length =
        (cur + (n + 1)) % servers.length := by
      rw [Nat.mod_add_mod]; congr 1; omega
    rw [hmod, List.append_assoc, List.singleton_append,
      rotate_range_map servers.length cur (n + 1) hcur]

/-- Claim C3: a post-transmission failure (request written, error not a
cancellation) never triggers failover: wherever the loop stands, it stops
on that endpoint, the cursor stays there, and the error is returned
directly — as-is when it is an Arango error, wrapped as a `ResponseError`
otherwise.  In particular a `Do` call hitting such an endpoint first makes
exactly one attempt. -/
theorem c3_post_transmission_no_failover (servers : List Server) (cur : Nat)
    (e : ErrInfo)
    (hda : (serverAt servers cur).doA = AttemptOutcome.err e true)
    (hc : e.canceled = false) :
    clusterDo servers cur =
      ⟨Except.error (if e.arango then DoErr.stacked e else DoErr.respWrapped e),
        cur, [cur]⟩ ∧
    ∀ remaining tried, doAux servers remaining cur tried =
      ⟨Except.error (if e.arango then DoErr.stacked e else DoErr.respWrapped e),
        cur, tried ++ [cur]⟩ := by
  refine ⟨?_, fun remaining tried =>
    doAux_written_step servers remaining cur tried e hda hc⟩
  rw [clusterDo, doAux_written_step servers (servers.length - 1) cur [] e hda hc]
  rfl

/-- Witness for C3: a single-endpoint pool failing post-transmission with a
non-Arango error returns the wrapped error after one attempt with the
cursor unmoved. -/
theorem c3_witness :
    clusterDo [postFailServer 5 false] 0 =
      ⟨Except.error (DoErr.respWrapped ⟨5, false, false⟩), 0, [0]⟩ := by
  have h := (c3_post_transmission_no_failover [postFailServer 5 false] 0
    ⟨5, false, false⟩ rfl rfl).1
  simpa using h

/-- Claim C4: an error classified as caller cancellation is returned
immediately, without trying any other endpoint and without moving the
cursor, wherever the loop stands. -/
theorem c4_cancellation_immediate (servers : List Server) (cur : Nat)
    (e : ErrInfo) (written : Bool)
    (hda : (serverAt servers cur).doA = AttemptOutcome.err e written)
    (hc : e.canceled = true) :
    clusterDo servers cur = ⟨Except.error (DoErr.stacked e), cur, [cur]⟩ ∧
    ∀ remaining tried, doAux servers remaining cur tried =
      ⟨Except.error (DoErr.stacked e), cur, tried ++ [cur]⟩ := by
  refine ⟨?_, fun remaining tried =>
    doAux_cancel_step servers remaining cur tried e written hda hc⟩
  rw [clusterDo,
    doAux_cancel_step servers (servers.length - 1) cur [] e written hda hc]
  rfl

/-- Witness for C4: a pool of three endpoints whose first attempt is
canceled returns at once; the other endpoints would have succeeded but are
never consulted. -/
theorem c4_witness :
    clusterDo [cancelServer 7, okServer 1, okServer 2] 0 =
      ⟨Except.error (DoErr.stacked ⟨7, true, false⟩), 0, [0]⟩ := by
  have h := (c4_cancellation_immediate [cancelServer 7, okServer 1, okServer 2] 0
    ⟨7, true, false⟩ false rfl rfl).1
  simpa using h

/-- Claim C9: a successful execution returns the response immediately and
leaves the cursor on the endpoint that succeeded (the last one attempted);
in particular a success on the first attempted endpoint leaves the cursor
unchanged and makes a single attempt. -/
theorem c9_success_cursor (servers : List Server) (cur r : Nat)
    (hok : (serverAt servers cur).doA = AttemptOutcome.ok r) :
    clusterDo servers cur = ⟨Except.ok r, cur, [cur]⟩ ∧
    ∀ cur2 r2, (clusterDo servers cur2).result = Except.ok r2 →
      (serverAt servers (clusterDo servers cur2).cursor).doA = AttemptOutcome.ok r2 ∧
      (clusterDo servers cur2).attempts.getLast? =
        some (clusterDo servers cur2).cursor := by
  constructor
  · rw [clusterDo, doAux_ok_step servers (servers.length - 1) cur [] r hok]
    rfl
  · intro cur2 r2 h
    exact doAux_ok_cursor servers (servers.length - 1) cur2 [] r2 h

/-- Witness for C9: a success on the first endpoint of a two-endpoint pool
with the cursor at 0 leaves the cursor at 0. -/
theorem c9_witness :
    clusterDo [okServer 42, preFailServer 1] 0 = ⟨Except.ok 42, 0, [0]⟩ := by
  have h := (c9_success_cursor [okServer 42, preFailServer 1] 0 42 rfl).1
  simpa using h

/-- Claim C10: `NewRequest` and `Unmarshal` always delegate to the first
endpoint of the pool, whatever the cursor holds (replacing the cursor value
changes nothing), while `Do` does consult the cursor: its first attempt is
the endpoint the cursor points at. -/
theorem c10_first_endpoint_delegation (servers : List Server) (cur k d : Nat)
    (method path : String) :
    ClusterConn.newRequest ⟨servers, cur⟩ method path =
      (serverAt servers 0).newReq method path ∧
    ClusterConn.newRequest ⟨servers, cur⟩ method path =
      ClusterConn.newRequest ⟨servers, k⟩ method path ∧
    ClusterConn.unmarshal ⟨servers, cur⟩ d = (serverAt servers 0).unmarshalRes d ∧
    ClusterConn.unmarshal ⟨servers, cur⟩ d = ClusterConn.unmarshal ⟨servers, k⟩ d ∧
    (clusterDo servers cur).attempts.head? = some cur := by
  refine ⟨rfl, rfl, rfl, rfl, ?_⟩
  obtain ⟨rest, hrest⟩ := doAux_attempts_head servers (servers.length - 1) cur []
  rw [clusterDo, hrest]
  rfl

/-- Counterexample for C1 as stated: with two endpoints that both fail
before transmission, two such failures occur, yet the final cursor is 1;
advancing the cursor after each of the two failures would have left it at
(0 + 2) % 2 = 0.  The code does not advance the cursor after the last
failure. -/
theorem c1_counterexample :
    (clusterDo [preFailServer 0, preFailServer 1] 0).attempts = [0, 1] ∧
    (clusterDo [preFailServer 0, preFailServer 1] 0).cursor = 1 ∧
    ¬((0 + 2) % 2 = 1) := by decide

/-- Claim C1 (amended): when every endpoint fails pre-transmission without
cancellation, `Do` attempts the endpoints in pool order starting at the
cursor, each exactly once, advancing the cursor before each retry but not
after the last failure, and returns the last encountered error; the final
cursor thus points at the last endpoint tried, `(cur + N - 1) % N`. -/
theorem c1_exhaustion_order (servers : List Server) (errOf : Nat → ErrInfo)
    (cur : Nat) (hcur : cur < servers.length)
    (hfail : ∀ i, i < servers.length →
      (serverAt servers i).doA = AttemptOutcome.err (errOf i) false ∧
      (errOf i).canceled = false) :
    clusterDo servers cur =
      ⟨Except.error (DoErr.stacked
          (errOf ((cur + (servers.length - 1)) % servers.length))),
       (cur + (servers.length - 1)) % servers.length,
       (List.range servers.length).map (fun j => (cur + j) % servers.length)⟩ ∧
    ((List.range servers.length).map
      (fun j => (cur + j) % servers.length)).Nodup := by
  have hlen : 0 < servers.length := lt_of_le_of_lt (Nat.zero_le _) hcur
  have hsucc : servers.length - 1 + 1 = servers.length :=
    Nat.succ_pred_eq_of_pos hlen
  constructor
  · have h := doAux_all_pre_fail servers errOf hfail (servers.length - 1) cur [] hcur
    rw [clusterDo, h, hsucc]
    rfl
  · apply List.Nodup.map_on ?_ (List.nodup_range servers.length)
    intro x hx y hy hxy
    rw [List.mem_range] at hx hy
    have hmx := Nat.mod_eq_of_lt hx
    have hmy := Nat.mod_eq_of_lt hy
    have hmod : x ≡ y [MOD servers.length] :=
      Nat.ModEq.add_left_cancel' cur hxy
    rwa [Nat.ModEq, hmx, hmy] at hmod

/-- Witness for the amended C1: both endpoints of a two-endpoint pool fail
pre-transmission; the endpoints are tried in order 0, 1, the error of
endpoint 1 is returned, and the cursor ends at 1. -/
theorem c1_witness :
    clusterDo [preFailServer 0, preFailServer 1] 0 =
      ⟨Except.error (DoErr.stacked ⟨1, false, false⟩), 1, [0, 1]⟩ := by
  have h := (c1_exhaustion_order [preFailServer 0, preFailServer 1]
    (fun i => ⟨i, false, false⟩) 0 (by decide)
    (by
      intro i hi
      match i, hi with
      | 0, _ => exact ⟨rfl, rfl⟩
      | 1, _ => exact ⟨rfl, rfl⟩)).1
  simpa using h

/-- Counterexample for C2 as stated: a pool of five endpoints that all fail
pre-transmission leads to five attempts, not at most three; the attempt
count is bounded by the pool size, not by the timeout divider. -/
theorem c2_counterexample :
    (clusterDo [preFailServer 0, preFailServer 1, preFailServer 2,
      preFailServer 3, preFailServer 4] 0).attempts.length = 5 ∧
    ¬(5 ≤ 3) := by decide

/-- Claim C2 (amended): the per-attempt timeout divides the overall timeout
by the pool size clamped to 1..3, and the number of attempts is bounded by
the pool size (one attempt per endpoint), not by 3. -/
theorem c2_divider_and_attempts (n : Nat) (t : ℚ) (servers : List Server)
    (cur : Nat) (hne : servers ≠ []) :
    timeoutDivider n = (clampPool n : ℚ) ∧
    attemptTimeout t n = t / (clampPool n : ℚ) ∧
    (clusterDo servers cur).attempts.length ≤ servers.length := by
  have h1 : timeoutDivider n = (clampPool n : ℚ) := by
    unfold timeoutDivider clampPool
    push_cast
    rfl
  refine ⟨h1, by rw [attemptTimeout, h1], ?_⟩
  have h2 := doAux_attempts_len servers (servers.length - 1) cur []
  have h3 : 0 < servers.length := List.length_pos.mpr hne
  rw [clusterDo]
  simp at h2
  omega

/-- Witness for the amended C2: a five-element pool has divider 3, and a
one-element pool makes at most one attempt. -/
theorem c2_witness :
    timeoutDivider 5 = ((clampPool 5 : Nat) : ℚ) ∧
    attemptTimeout 1 5 = 1 / ((clampPool 5 : Nat) : ℚ) ∧
    (clusterDo [preFailServer 0] 0).attempts.length ≤ 1 := by
  exact c2_divider_and_attempts 5 1 [preFailServer 0] 0 (List.cons_ne_nil _ _)

/-- Reading next to a write leaves the element unchanged. -/
theorem getD_set_ne {α : Type} {i j : Nat} (hij : i ≠ j) (l : List α) (a d : α) :
    (l.set i a).getD j d = l.getD j d := by
  induction l generalizing i j with
  | nil => simp
  | cons x xs ihx =>
    cases i with
    | zero =>
      cases j with
      | zero => exact absurd rfl hij
      | succ j2 => simp [List.getD_cons_succ]
    | succ i2 =>
      cases j with
      | zero => simp [List.getD_cons_zero]
      | succ j2 =>
        simp only [List.set_cons_succ, List.getD_cons_succ]
        exact ihx (fun h => hij (by rw [h]))

/-- Reading at a written index inside the list yields the written value. -/
theorem getD_set_self {α : Type} (l : List α) (i : Nat) (a d : α)
    (hi : i < l.length) :
    (l.set i a).getD i d = a := by
  induction l generalizing i with
  | nil => simp at hi
  | cons x xs ihx =>
    cases i with
    | zero => rfl
    | succ i2 =>
      simp only [List.set_cons_succ, List.getD_cons_succ]
      exact ihx i2 (by simpa using hi)

/-- Reading inside a replicated list yields the replicated value. -/
theorem getD_replicate {α : Type} (n i : Nat) (a d : α) (hi : i < n) :
    (List.replicate n a).getD i d = a := by
  induction n generalizing i with
  | zero => omega
  | succ n2 ihn =>
    cases i with
    | zero => rfl
    | succ i2 =>
      simp only [List.replicate_succ, List.getD_cons_succ]
      exact ihn i2 (by omega)

/-- One pass of the decode loop leaves both array lengths unchanged. -/
theorem parseStep_length (cs : ContextSettings) (resps : List WireResponse)
    (acc : List DocumentMeta × List (Option DriverError)) (i : Nat) :
    (parseStep cs resps acc i).1.length = acc.1.length ∧
    (parseStep cs resps acc i).2.length = acc.2.length := by
  unfold parseStep
  generalize resps.getD i wrDefault = r
  cases hc1 : checkStatusL r [200, 201, 202] <;>
    cases hm : r.metaBody <;>
    cases ho : r.oldBody <;>
    cases hn : r.newBody <;>
    cases hro : cs.returnOld <;>
    cases hrn : cs.returnNew <;>
    simp [hc1, hm, ho, hn, hro, hrn, List.length_set]

/-- One pass of the decode loop touches no index other than its own. -/
theorem parseStep_getD_ne (cs : ContextSettings) (resps : List WireResponse)
    (acc : List DocumentMeta × List (Option DriverError)) (i j : Nat)
    (hij : i ≠ j) :
    (parseStep cs resps acc i).1.getD j zeroMeta = acc.1.getD j zeroMeta ∧
    (parseStep cs resps acc i).2.getD j none = acc.2.getD j none := by
  unfold parseStep
  generalize resps.getD i wrDefault = r
  cases hc1 : checkStatusL r [200, 201, 202] <;>
    cases hm : r.metaBody <;>
    cases ho : r.oldBody <;>
    cases hn : r.newBody <;>
    cases hro : cs.returnOld <;>
    cases hrn : cs.returnNew <;>
    simp [hc1, hm, ho, hn, hro, hrn, getD_set_ne hij, List.getElem?_set_ne hij]

/-- One pass of the decode loop writes its own index with the value of the
per-item decode, provided the index still holds the initial values. -/
theorem parseStep_getD_self (cs : ContextSettings) (resps : List WireResponse)
    (acc : List DocumentMeta × List (Option DriverError)) (i : Nat)
    (h1 : i < acc.1.length) (h2 : i < acc.2.length)
    (hm0 : acc.1.getD i zeroMeta = zeroMeta)
    (he0 : acc.2.getD i none = none) :
    (parseStep cs resps acc i).1.getD i zeroMeta =
      (itemDecode cs (resps.getD i wrDefault)).1 ∧
    (parseStep cs resps acc i).2.getD i none =
      (itemDecode cs (resps.getD i wrDefault)).2 := by
  have hset1 : ∀ a : DocumentMeta, (acc.1.set i a)[i]? = some a :=
    fun a => List.getElem?_set_eq_of_lt a h1
  have hset2 : ∀ a : Option DriverError, (acc.2.set i a)[i]? = some a :=
    fun a => List.getElem?_set_eq_of_lt a h2
  have hset2b : ∀ a b : Option DriverError,
      ((acc.2.set i a).set i b)[i]? = some b :=
    fun a b => List.getElem?_set_eq_of_lt b (by simpa using h2)
  rw [List.getD_eq_getElem?_getD] at hm0 he0
  unfold parseStep itemDecode
  generalize resps.getD i wrDefault = r
  cases hc1 : checkStatusL r [200, 201, 202] <;>
    cases hm : r.metaBody <;>
    cases ho : r.oldBody <;>
    cases hn : r.newBody <;>
    cases hro : cs.returnOld <;>
    cases hrn : cs.returnNew <;>
    simp [hc1, hm, ho, hn, hro, hrn, hm0, he0,
      hset1, hset2, hset2b, Option.orElse]

/-- The decode loop leaves both array lengths unchanged. -/
theorem parseFold_length (cs : ContextSettings) (resps : List WireResponse) :
    ∀ (l : List Nat) (acc : List DocumentMeta × List (Option DriverError)),
      (l.foldl (parseStep cs resps) acc).1.length = acc.1.length ∧
      (l.foldl (parseStep cs resps) acc).2.length = acc.2.length := by
  intro l
  induction l with
  | nil => intro acc; exact ⟨rfl, rfl⟩
  | cons x xs ihx =>
    intro acc
    rw [List.foldl_cons]
    obtain ⟨ha, hb⟩ := ihx (parseStep cs resps acc x)
    obtain ⟨hc, hd⟩ := parseStep_length cs resps acc x
    exact ⟨ha.trans hc, hb.trans hd⟩

/-- The decode loop leaves indices it does not visit unchanged. -/
theorem parseFold_getD_notMem (cs : ContextSettings) (resps : List WireResponse) :
    ∀ (l : List Nat) (acc : List DocumentMeta × List (Option DriverError))
      (j : Nat), j ∉ l →
      (l.foldl (parseStep cs resps) acc).1.getD j zeroMeta = acc.1.getD j zeroMeta ∧
      (l.foldl (parseStep cs resps) acc).2.getD j none = acc.2.getD j none := by
  intro l
  induction l with
  | nil => intro acc j hj; exact ⟨rfl, rfl⟩
  | cons x xs ihx =>
    intro acc j hj
    rw [List.foldl_cons]
    have hxj : x ≠ j := fun h => hj (List.mem_cons.mpr (Or.inl h.symm))
    have hjxs : j ∉ xs := fun h => hj (List.mem_cons_of_mem x h)
    obtain ⟨ha, hb⟩ := ihx (parseStep cs resps acc x) j hjxs
    obtain ⟨hc, hd⟩ := parseStep_getD_ne cs resps acc x j hxj
    exact ⟨ha.trans hc, hb.trans hd⟩

/-- The decode loop writes each visited index with the value of the per-item
decode of that index's response. -/
theorem parseFold_getD_mem (cs : ContextSettings) (resps : List WireResponse) :
    ∀ (l : List Nat) (acc : List DocumentMeta × List (Option DriverError))
      (j : Nat), l.Nodup → j ∈ l →
      j < acc.1.length → j < acc.2.length →
      acc.1.getD j zeroMeta = zeroMeta → acc.2.getD j none = none →
      (l.foldl (parseStep cs resps) acc).1.getD j zeroMeta =
        (itemDecode cs (resps.getD j wrDefault)).1 ∧
      (l.foldl (parseStep cs resps) acc).2.getD j none =
        (itemDecode cs (resps.getD j wrDefault)).2 := by
  intro l
  induction l with
  | nil => intro acc j _ hj; exact absurd hj (List.not_mem_nil j)
  | cons x xs ihx =>
    intro acc j hnd hmem h1 h2 hm0 he0
    rw [List.foldl_cons]
    rcases List.mem_cons.mp hmem with hjx | hmem2
    · subst hjx
      have hx : j ∉ xs := (List.nodup_cons.mp hnd).1
      obtain ⟨ha, hb⟩ := parseFold_getD_notMem cs resps xs
        (parseStep cs resps acc j) j hx
      obtain ⟨hc, hd⟩ := parseStep_getD_self cs resps acc j h1 h2 hm0 he0
      exact ⟨ha.trans hc, hb.trans hd⟩
    · have hx : x ∉ xs := (List.nodup_cons.mp hnd).1
      have hxj : x ≠ j := fun h => hx (h ▸ hmem2)
      obtain ⟨hc, hd⟩ := parseStep_getD_ne cs resps acc x j hxj
      obtain ⟨hl1, hl2⟩ := parseStep_length cs resps acc x
      exact ihx (parseStep cs resps acc x) j (List.nodup_cons.mp hnd).2 hmem2
        (hl1 ▸ h1) (hl2 ▸ h2) (hc.trans hm0) (hd.trans he0)

/-- Characterization of `parseResponseArray` when the array body decodes:
both result arrays have length `count` and position `j` holds exactly the
per-item decode of the `j`-th response. -/
theorem parseResponseArray_spec (resp : WireArrayResponse) (count : Nat)
    (cs : ContextSettings) (resps : List WireResponse)
    (hitems : resp.items = Except.ok resps) :
    ∃ metas errs,
      parseResponseArray resp count cs = Except.ok (metas, errs) ∧
      metas.length = count ∧ errs.length = count ∧
      ∀ j, j < count →
        metas.getD j zeroMeta = (itemDecode cs (resps.getD j wrDefault)).1 ∧
        errs.getD j none = (itemDecode cs (resps.getD j wrDefault)).2 := by
  refine ⟨((List.range count).foldl (parseStep cs resps)
      (List.replicate count zeroMeta, List.replicate count none)).1,
    ((List.range count).foldl (parseStep cs resps)
      (List.replicate count zeroMeta, List.replicate count none)).2,
    ?_, ?_, ?_, ?_⟩
  · unfold parseResponseArray
    rw [hitems]
  · have h := (parseFold_length cs resps (List.range count)
      (List.replicate count zeroMeta, List.replicate count none)).1
    simpa using h
  · have h := (parseFold_length cs resps (List.range count)
      (List.replicate count zeroMeta, List.replicate count none)).2
    simpa using h
  · intro j hj
    exact parseFold_getD_mem cs resps (List.range count)
      (List.replicate count zeroMeta, List.replicate count none) j
      (List.nodup_range count) (List.mem_range.mpr hj)
      (by simpa using hj) (by simpa using hj)
      (getD_replicate count j zeroMeta zeroMeta hj)
      (getD_replicate count j none none hj)

/-- A response whose status is not among 200, 201, 202 decodes to the zero
meta together with its decoded status error. -/
theorem itemDecode_of_status_not_accepted (cs : ContextSettings)
    (r : WireResponse) (h : r.status ∉ [200, 201, 202]) :
    itemDecode cs r = (zeroMeta, some r.statusErr) := by
  unfold itemDecode checkStatusL
  simp [h]

/-- A position without a recorded error passed the status check and carries
the decoded metadata. -/
theorem itemDecode_err_none (cs : ContextSettings) (r : WireResponse)
    (h : (itemDecode cs r).2 = none) :
    checkStatusL r [200, 201, 202] = none ∧
    r.metaBody = Except.ok (itemDecode cs r).1 := by
  unfold itemDecode at h ⊢
  cases hc : checkStatusL r [200, 201, 202] with
  | some e => rw [hc] at h; simp at h
  | none =>
    rw [hc] at h
    cases hm : r.metaBody with
    | error em => rw [hm] at h; simp at h
    | ok m => exact ⟨rfl, by simp⟩

/-- Counterexample for C5 as stated: with return-old requested, a position
whose status and metadata decode but whose `old` field fails to decode ends
with a non-nil error and a NON-zero meta at the same index — the two are
not mutually exclusive and a per-item failure does not always leave a zero
meta. -/
theorem c5_counterexample :
    parseResponseArray
      ⟨202, DriverError.wire 1,
        Except.ok [⟨201, DriverError.wire 9,
          Except.ok ⟨"k", "coll/k", "r1"⟩,
          Except.error (DriverError.wire 7), Except.ok ()⟩]⟩
      1 ⟨false, true, false, false, none⟩ =
      Except.ok ([⟨"k", "coll/k", "r1"⟩], [some (DriverError.wire 7)]) ∧
    (⟨"k", "coll/k", "r1"⟩ : DocumentMeta) ≠ zeroMeta := by decide

/-- Claim C5 (amended): when the response array decodes, the returned
arrays both have length N; position i of the results is a function of
position i of the responses alone (order preserved, no abort on a per-item
failure); a status or metadata-decode failure at k leaves a non-nil
`errors[k]` and a zero `metas[k]`; a position with nil error carries
decoded metadata; but a return-old/new decode failure records the error
while keeping the already-decoded metadata, so at such an index both
entries are meaningful. -/
theorem c5_batched_result_invariant (resp : WireArrayResponse) (count : Nat)
    (cs : ContextSettings) (resps : List WireResponse)
    (hitems : resp.items = Except.ok resps) :
    ∃ metas errs,
      parseResponseArray resp count cs = Except.ok (metas, errs) ∧
      metas.length = count ∧ errs.length = count ∧
      (∀ j, j < count →
        metas.getD j zeroMeta = (itemDecode cs (resps.getD j wrDefault)).1 ∧
        errs.getD j none = (itemDecode cs (resps.getD j wrDefault)).2) ∧
      (∀ j, j < count → (resps.getD j wrDefault).status ∉ [200, 201, 202] →
        metas.getD j zeroMeta = zeroMeta ∧
        errs.getD j none = some (resps.getD j wrDefault).statusErr) ∧
      (∀ j, j < count → errs.getD j none = none →
        (resps.getD j wrDefault).metaBody = Except.ok (metas.getD j zeroMeta)) := by
  obtain ⟨metas, errs, h1, h2, h3, h4⟩ :=
    parseResponseArray_spec resp count cs resps hitems
  refine ⟨metas, errs, h1, h2, h3, h4, ?_, ?_⟩
  · intro j hj hbad
    constructor
    · rw [(h4 j hj).1, itemDecode_of_status_not_accepted cs _ hbad]
    · rw [(h4 j hj).2, itemDecode_of_status_not_accepted cs _ hbad]
  · intro j hj hnone
    rw [(h4 j hj).1]
    exact (itemDecode_err_none cs (resps.getD j wrDefault)
      (by rw [← (h4 j hj).2]; exact hnone)).2

/-- Witness for the amended C5: a two-item response with a failing first
item (status 404) and a succeeding second item. -/
theorem c5_witness :
    ∃ metas errs,
      parseResponseArray
        ⟨202, DriverError.wire 1,
          Except.ok [⟨404, DriverError.arango 404 1202 "not found",
            Except.error (DriverError.wire 2), Except.ok (), Except.ok ()⟩,
          ⟨201, DriverError.wire 3, Except.ok ⟨"k2", "coll/k2", "r2"⟩,
            Except.ok (), Except.ok ()⟩]⟩
        2 ⟨false, false, false, false, none⟩ = Except.ok (metas, errs) ∧
      metas.length = 2 ∧ errs.length = 2 ∧
      (∀ j, j < 2 →
        metas.getD j zeroMeta =
          (itemDecode ⟨false, false, false, false, none⟩
            ([⟨404, DriverError.arango 404 1202 "not found",
              Except.error (DriverError.wire 2), Except.ok (), Except.ok ()⟩,
            ⟨201, DriverError.wire 3, Except.ok ⟨"k2", "coll/k2", "r2"⟩,
              Except.ok (), Except.ok ()⟩].getD j wrDefault)).1 ∧
        errs.getD j none =
          (itemDecode ⟨false, false, false, false, none⟩
            ([⟨404, DriverError.arango 404 1202 "not found",
              Except.error (DriverError.wire 2), Except.ok (), Except.ok ()⟩,
            ⟨201, DriverError.wire 3, Except.ok ⟨"k2", "coll/k2", "r2"⟩,
              Except.ok (), Except.ok ()⟩].getD j wrDefault)).2) ∧
      (∀ j, j < 2 →
        ([⟨404, DriverError.arango 404 1202 "not found",
            Except.error (DriverError.wire 2), Except.ok (), Except.ok ()⟩,
          ⟨201, DriverError.wire 3, Except.ok ⟨"k2", "coll/k2", "r2"⟩,
            Except.ok (), Except.ok ()⟩].getD j wrDefault).status ∉ [200, 201, 202] →
        metas.getD j zeroMeta = zeroMeta ∧
        errs.getD j none = some
          (([⟨404, DriverError.arango 404 1202 "not found",
              Except.error (DriverError.wire 2), Except.ok (), Except.ok ()⟩,
            ⟨201, DriverError.wire 3, Except.ok ⟨"k2", "coll/k2", "r2"⟩,
              Except.ok (), Except.ok ()⟩].getD j wrDefault)).statusErr) ∧
      (∀ j, j < 2 → errs.getD j none = none →
        ([⟨404, DriverError.arango 404 1202 "not found",
            Except.error (DriverError.wire 2), Except.ok (), Except.ok ()⟩,
          ⟨201, DriverError.wire 3, Except.ok ⟨"k2", "coll/k2", "r2"⟩,
            Except.ok (), Except.ok ()⟩].getD j wrDefault).metaBody =
          Except.ok (metas.getD j zeroMeta)) := by
  exact c5_batched_result_invariant _ 2 _ _ rfl

/-- Counterexample for C6 as stated: in a batched create, the per-position
check accepts status 200 — which is NOT in the claimed Create accepted set
201/202 — and records decoded metadata with a nil error at that position.
The per-position check is the fixed set 200/201/202, not the per-operation
set. -/
theorem c6_counterexample :
    createDocuments
      ⟨none, none, Except.error (DriverError.wire 0),
        Except.ok ⟨202, DriverError.wire 1,
          Except.ok [⟨200, DriverError.wire 2,
            Except.ok ⟨"k", "coll/k", "r1"⟩, Except.ok (), Except.ok ()⟩]⟩⟩
      ⟨false, false, false, false, none⟩ [0] =
      ((([⟨"k", "coll/k", "r1"⟩], [none]), none), 1) ∧
    ¬(200 = 201 ∨ 200 = 202) := by decide

/-- Claim C6 (amended): for each position of a batched response the status
code is checked against the fixed accepted set 200/201/202 (the same for
every operation); on a non-accepted status a decoded error is recorded at
`errors[i]` with `metas[i]` left empty, and every other position is decoded
independently, unaffected by the failure.  The operation-specific accepted
status applies to the overall array response, not per position. -/
theorem c6_per_position_status (resp : WireArrayResponse) (count : Nat)
    (cs : ContextSettings) (resps : List WireResponse) (j : Nat)
    (hitems : resp.items = Except.ok resps) (hj : j < count)
    (hbad : (resps.getD j wrDefault).status ∉ [200, 201, 202]) :
    ∃ metas errs,
      parseResponseArray resp count cs = Except.ok (metas, errs) ∧
      metas.length = count ∧ errs.length = count ∧
      errs.getD j none = some (resps.getD j wrDefault).statusErr ∧
      metas.getD j zeroMeta = zeroMeta ∧
      ∀ j2, j2 < count → j2 ≠ j →
        metas.getD j2 zeroMeta = (itemDecode cs (resps.getD j2 wrDefault)).1 ∧
        errs.getD j2 none = (itemDecode cs (resps.getD j2 wrDefault)).2 := by
  obtain ⟨metas, errs, h1, h2, h3, h4⟩ :=
    parseResponseArray_spec resp count cs resps hitems
  refine ⟨metas, errs, h1, h2, h3, ?_, ?_, fun j2 hj2 _ => h4 j2 hj2⟩
  · rw [(h4 j hj).2, itemDecode_of_status_not_accepted cs _ hbad]
  · rw [(h4 j hj).1, itemDecode_of_status_not_accepted cs _ hbad]

/-- Witness for the amended C6: a single-item response with status 500
records the decoded status error and a zero meta. -/
theorem c6_witness :
    ∃ metas errs,
      parseResponseArray
        ⟨202, DriverError.wire 1,
          Except.ok [⟨500, DriverError.arango 500 4 "server error",
            Except.ok ⟨"k", "coll/k", "r1"⟩, Except.ok (), Except.ok ()⟩]⟩
        1 ⟨false, false, false, false, none⟩ = Except.ok (metas, errs) ∧
      metas.length = 1 ∧ errs.length = 1 ∧
      errs.getD 0 none = some
        (([⟨500, DriverError.arango 500 4 "server error",
          Except.ok ⟨"k", "coll/k", "r1"⟩, Except.ok (),
          Except.ok ()⟩].getD 0 wrDefault)).statusErr ∧
      metas.getD 0 zeroMeta = zeroMeta ∧
      ∀ j2, j2 < 1 → j2 ≠ 0 →
        metas.getD j2 zeroMeta =
          (itemDecode ⟨false, false, false, false, none⟩
            ([⟨500, DriverError.arango 500 4 "server error",
              Except.ok ⟨"k", "coll/k", "r1"⟩, Except.ok (),
              Except.ok ()⟩].getD j2 wrDefault)).1 ∧
        errs.getD j2 none =
          (itemDecode ⟨false, false, false, false, none⟩
            ([⟨500, DriverError.arango 500 4 "server error",
              Except.ok ⟨"k", "coll/k", "r1"⟩, Except.ok (),
              Except.ok ()⟩].getD j2 wrDefault)).2 := by
  exact c6_per_position_status _ 1 _ _ 0 rfl (by decide) (by decide)

/-- Claim C7: malformed caller input — a blank key, a nil document or
update payload, or a batched update with mismatched key/update lengths —
fails with InvalidArgument and issues zero network requests. -/
theorem c7_invalid_argument_no_network (env : WireEnv) (cs : ContextSettings)
    (key : String) (u : Option Nat) (keys : List String) (updates : List Nat)
    (hlen : keys.length ≠ updates.length) :
    updateDocument env cs "" u =
      ((zeroMeta, some (DriverError.invalidArgument "key is empty")), 0) ∧
    (∃ m, updateDocument env cs key none =
      ((zeroMeta, some (DriverError.invalidArgument m)), 0)) ∧
    createDocument env cs none =
      ((zeroMeta, some (DriverError.invalidArgument "document nil")), 0) ∧
    updateDocuments env cs keys updates =
      ((([], []), some (DriverError.invalidArgument "expected keys")), 0) := by
  refine ⟨rfl, ?_, rfl, ?_⟩
  · by_cases hk : key = ""
    · exact ⟨"key is empty", by rw [hk]; rfl⟩
    · refine ⟨"update nil", ?_⟩
      unfold updateDocument validateKey
      simp [hk]
  · unfold updateDocuments
    simp [hlen]

/-- Witness for C7 at concrete inputs: blank key, nil update, nil document,
and a one-key/zero-update batch. -/
theorem c7_witness :
    updateDocument
      ⟨none, none, Except.error (DriverError.wire 0),
        Except.error (DriverError.wire 0)⟩
      ⟨false, false, false, false, none⟩ "" (some 0) =
      ((zeroMeta, some (DriverError.invalidArgument "key is empty")), 0) ∧
    (∃ m, updateDocument
      ⟨none, none, Except.error (DriverError.wire 0),
        Except.error (DriverError.wire 0)⟩
      ⟨false, false, false, false, none⟩ "validKey" none =
      ((zeroMeta, some (DriverError.invalidArgument m)), 0)) ∧
    createDocument
      ⟨none, none, Except.error (DriverError.wire 0),
        Except.error (DriverError.wire 0)⟩
      ⟨false, false, false, false, none⟩ none =
      ((zeroMeta, some (DriverError.invalidArgument "document nil")), 0) ∧
    updateDocuments
      ⟨none, none, Except.error (DriverError.wire 0),
        Except.error (DriverError.wire 0)⟩
      ⟨false, false, false, false, none⟩ ["a"] [] =
      ((([], []), some (DriverError.invalidArgument "expected keys")), 0) := by
  exact c7_invalid_argument_no_network _ _ "validKey" (some 0) ["a"] []
    (by decide)

/-- Claim C8: with the silent option set and an accepted wire status, the
mutation call returns immediately with zero-value results — the singular
update returns the empty meta and the batched create returns empty slices —
without consulting any of the response body decode outcomes (the response
parse fields here are arbitrary, and the array body may even fail to
parse). -/
theorem c8_silent_short_circuit (env : WireEnv) (cs : ContextSettings)
    (key : String) (u : Nat) (resp : WireResponse)
    (aresp : WireArrayResponse) (docs : List Nat)
    (hsilent : cs.silent = true) (hkey : ¬(key = ""))
    (hnr : env.newReqErr = none) (hsb : env.setBodyErr = none)
    (hdo : env.doSingle = Except.ok resp)
    (hst : resp.status = cs.okStatus 201 202)
    (hda : env.doArray = Except.ok aresp)
    (hast : aresp.status = cs.okStatus 201 202) :
    updateDocument env cs key (some u) = ((zeroMeta, none), 1) ∧
    createDocuments env cs docs = ((([], []), none), 1) := by
  constructor
  · unfold updateDocument validateKey
    simp [hkey, hnr, hsb, hdo, checkStatusL, hst, hsilent]
  · unfold createDocuments
    simp [hnr, hsb, hda, hast, hsilent]

/-- Witness for C8: a silent update and a silent batched create against
responses whose bodies do not even decode still return the zero meta and
empty slices after one network call each. -/
theorem c8_witness :
    updateDocument
      ⟨none, none,
        Except.ok ⟨202, DriverError.wire 1, Except.error (DriverError.wire 2),
          Except.error (DriverError.wire 5), Except.error (DriverError.wire 6)⟩,
        Except.ok ⟨202, DriverError.wire 3, Except.error (DriverError.wire 4)⟩⟩
      ⟨true, false, false, false, none⟩ "k" (some 0) = ((zeroMeta, none), 1) ∧
    createDocuments
      ⟨none, none,
        Except.ok ⟨202, DriverError.wire 1, Except.error (DriverError.wire 2),
          Except.error (DriverError.wire 5), Except.error (DriverError.wire 6)⟩,
        Except.ok ⟨202, DriverError.wire 3, Except.error (DriverError.wire 4)⟩⟩
      ⟨true, false, false, false, none⟩ [0, 1] = ((([], []), none), 1) := by
  exact c8_silent_short_circuit _ _ "k" 0
    ⟨202, DriverError.wire 1, Except.error (DriverError.wire 2),
      Except.error (DriverError.wire 5), Except.error (DriverError.wire 6)⟩
    ⟨202, DriverError.wire 3, Except.error (DriverError.wire 4)⟩
    [0, 1] rfl (by decide) rfl rfl rfl rfl rfl rfl

end GoDriver
